import Mathlib

/-!
Verification of the destiny-engine backend core.

We give a shallow embedding of the pure algorithmic parts of the backend:

* the validation clamps: `RobustCareerAnalyzer._intelligent_validation`
  (src/backend/robust_ai.py) and `validate_wealth_estimates`
  (src/backend/main.py);
* the institution resolver `find_university_tier` (src/backend/main.py) with
  its exact pass, scored fuzzy pass, and escalation to the external
  assessment, plus the static rating
  `RobustUniversityAnalyzer._get_fallback_university_rating`
  (src/backend/robust_ai.py);
* the numeric extraction cascade of
  `RobustCareerAnalyzer.get_brutal_career_estimate` (src/backend/robust_ai.py)
  with its largest-numbers stage and the intelligent fallback
  `RobustCareerAnalyzer._get_intelligent_fallback`;
* the probability clamping of `get_success_probability` (src/backend/main.py).

Python floats are modelled as rationals, Python strings as Lean strings.
The replies of the external generative service are opaque; where a function
consumes a reply only through a regular-expression parse, the embedding takes
the parse outcome (an optional number, or a list of extracted number tokens)
as an explicit argument and models the control flow that consumes it.
-/

/-- Does the character list start with the given pattern. -/
def listStarts : List Char → List Char → Bool
  | _, [] => true
  | [], _ :: _ => false
  | a :: hs, b :: ns => a == b && listStarts hs ns

/-- Substring containment on character lists; model of the Python operator
`needle in hay` on strings. -/
def listHasSub : List Char → List Char → Bool
  | [], needle => listStarts [] needle
  | a :: t, needle => listStarts (a :: t) needle || listHasSub t needle

/-- Model of the Python substring test `needle in hay`. -/
def strContains (hay needle : String) : Bool :=
  listHasSub hay.data needle.data

/-- Model of Python `any(keyword in s for keyword in kws)`. -/
def containsAny (s : String) (kws : List String) : Bool :=
  kws.any (fun k => strContains s k)

/-- Model of Python `dict.get(k, d)` over an association list (the source
dictionaries have distinct keys, and insertion order is iteration order). -/
def lookupD (l : List (String × ℚ)) (k : String) (d : ℚ) : ℚ :=
  match l.find? (fun p => p.1 == k) with
  | some p => p.2
  | none => d

/-- Category cap pairs of `RobustCareerAnalyzer._intelligent_validation`
(robust_ai.py lines 270-293): the elif chain over keyword groups, with the
moderate default for unrecognized careers. -/
def categoryCaps (a : String) : ℚ × ℚ :=
  if containsAny a ["farm", "agriculture", "labor", "clean", "driver", "security", "retail"] then
    (600000, 120000)
  else if containsAny a ["teacher", "nurse", "police", "clerk", "assistant"] then
    (1200000, 200000)
  else if containsAny a ["engineer", "accountant", "manager", "analyst", "designer"] then
    (3000000, 500000)
  else if containsAny a ["doctor", "lawyer", "software", "consultant", "finance"] then
    (5000000, 800000)
  else if containsAny a ["entrepreneur", "business", "startup", "ceo"] then
    (8000000, 1200000)
  else
    (2500000, 400000)

/-- Country multiplier table of `_intelligent_validation`
(robust_ai.py lines 296-302). -/
def country_multipliers : List (String × ℚ) :=
  [("usa", 1), ("united states", 1), ("america", 1),
   ("canada", 9/10), ("australia", 9/10), ("uk", 9/10), ("united kingdom", 9/10),
   ("germany", 8/10), ("france", 8/10), ("japan", 8/10), ("singapore", 9/10),
   ("india", 6/10), ("china", 5/10), ("brazil", 4/10), ("mexico", 4/10),
   ("nigeria", 3/10), ("bangladesh", 3/10), ("pakistan", 3/10)]

/-- Numeric core of `_intelligent_validation` (robust_ai.py lines 308-326):
cap each component at the country-scaled category cap, re-derive the
ten-year figure as 40 percent of lifetime when it exceeds 70 percent of
lifetime, then apply the fixed floors. -/
def clampPair (maxL maxT L T : ℚ) : ℚ × ℚ :=
  let L1 := if L > maxL then maxL else L
  let T1 := if T > maxT then maxT else T
  let T2 := if T1 > L1 * (7/10) then L1 * (4/10) else T1
  (max 50000 L1, max 10000 T2)

/-- Model of `RobustCareerAnalyzer._intelligent_validation`
(robust_ai.py lines 263-326).  The aspiration is lowercased and stripped,
the category caps are scaled by the country multiplier (default 1/2 for
unknown countries), and the numeric clamp core is applied. -/
def intelligent_validation (asp country : String) (L T : ℚ) : ℚ × ℚ :=
  clampPair
    ((categoryCaps (asp.toLower.trim)).1 * lookupD country_multipliers country.toLower (1/2))
    ((categoryCaps (asp.toLower.trim)).2 * lookupD country_multipliers country.toLower (1/2))
    L T

/-- Career cap table of `validate_wealth_estimates` (main.py lines 197-230),
in source dictionary order; the first keyword contained in the lowercased
aspiration wins. -/
def career_caps : List (String × ℚ × ℚ) :=
  [("farmer", 500000, 100000), ("farming", 500000, 100000), ("agriculture", 600000, 120000),
   ("teacher", 800000, 150000), ("teaching", 800000, 150000),
   ("retail", 600000, 100000), ("cashier", 400000, 80000), ("waiter", 400000, 80000),
   ("driver", 500000, 100000), ("security", 500000, 90000), ("cleaner", 350000, 70000),
   ("cook", 450000, 90000),
   ("nurse", 1200000, 200000), ("engineer", 2500000, 450000), ("accountant", 1500000, 250000),
   ("manager", 2000000, 350000), ("analyst", 1800000, 300000), ("designer", 1400000, 250000),
   ("marketing", 1600000, 280000), ("sales", 1800000, 300000),
   ("doctor", 4000000, 600000), ("lawyer", 3500000, 500000), ("software", 3000000, 500000),
   ("consultant", 3500000, 550000), ("finance", 4000000, 600000), ("investment", 5000000, 800000),
   ("entrepreneur", 10000000, 1000000)]

/-- First matching career cap pair for an aspiration (main.py lines 233-240);
`none` when no keyword of the table occurs in the lowercased aspiration.
All caps in the table are nonzero, so the Python truthiness guard
`if max_lifetime and max_ten_year` is equivalent to the match having
succeeded. -/
def capsOf (asp : String) : Option (ℚ × ℚ) :=
  Option.map (fun p => p.2) (career_caps.find? (fun p => strContains asp.toLower p.1))

/-- Numeric core of `validate_wealth_estimates` (main.py lines 242-267):
optional category caps, the global 20,000,000 ceiling on lifetime, the
ratio rule (ten-year above 60 percent of lifetime is recomputed as
30 percent of lifetime), then the fixed floors. -/
def wealthClampPair (caps : Option (ℚ × ℚ)) (L T : ℚ) : ℚ × ℚ :=
  let L1 := match caps with | some c => if L > c.1 then c.1 else L | none => L
  let T1 := match caps with | some c => if T > c.2 then c.2 else T | none => T
  let L2 := if L1 > 20000000 then 20000000 else L1
  let T2 := if T1 > L2 * (6/10) then L2 * (3/10) else T1
  (if L2 < 50000 then 50000 else L2, if T2 < 10000 then 10000 else T2)

/-- Model of `validate_wealth_estimates` (main.py lines 192-267). -/
def validate_wealth_estimates (asp : String) (L T : ℚ) : ℚ × ℚ :=
  wealthClampPair (capsOf asp) L T

/-- A row of the university reference catalog (`university_ranks.csv` as
loaded by main.py): normalized tier and the rank column already resolved to
an integer, exactly the fields `find_university_tier` reads from a row. -/
structure UniEntry where
  name : String
  tier : String
  rank : Int
deriving DecidableEq

/-- Outcome of one institution resolution (the ResolutionResult of the
specification).  `exact` and `fuzzy` carry the data of the matched row;
`aiAssess` is the empty-catalog escalation (`get_ai_university_assessment`,
main.py line 277) and `externalFallback` the no-match escalation
(`RobustUniversityAnalyzer.get_strict_university_assessment`,
main.py line 354); both are external generative calls and therefore opaque
here. -/
inductive ResolutionOutcome where
  | exact (tier : String) (rank : Int)
  | fuzzy (tier : String) (rank : Int) (score : ℚ)
  | aiAssess
  | externalFallback
deriving DecidableEq

/-- Model of Python `set(s.split())`: whitespace-separated words without
duplicates. -/
def wordsOf (s : String) : List String :=
  ((s.split (fun c => c.isWhitespace)).filter (fun w => w ≠ "")).dedup

/-- Abbreviation whitelist of `find_university_tier`
(main.py line 324). -/
def abbrevTokens : List String := ["iit", "nit", "iisc", "iim", "bits"]

/-- Model of Python `s.replace(kw, '').strip().split()`
(main.py lines 330-331). -/
def partsAfter (s kw : String) : List String :=
  (((s.replace kw "").trim).split (fun c => c.isWhitespace)).filter (fun w => w ≠ "")

/-- Condition 4 of the scored pass (main.py lines 324-333): an abbreviation
token occurs in the query and in the entry name, the same token occurs in
both, and after stripping it some query part longer than two characters
also occurs among the entry parts. -/
def abbrevSignal (qc uni : String) : Bool :=
  containsAny qc abbrevTokens && containsAny uni abbrevTokens &&
    abbrevTokens.any (fun k =>
      strContains qc k && strContains uni k &&
        (partsAfter qc k).any (fun p => p.length > 2 && (partsAfter uni k).contains p))

/-- Word-overlap ratio of condition 3 (main.py lines 317-321). -/
def wordOverlapScore (qw uw : List String) : ℚ :=
  ((qw.filter (fun w => uw.contains w)).length : ℚ) / (max qw.length uw.length : ℚ)

/-- The list `matches` built for one catalog entry by the scored pass
(main.py lines 305-333), in source order: containment of the query in the
entry name (0.9), containment of the entry name in the query (0.8), the
word-overlap ratio when above 0.3, and the abbreviation signal (0.95). -/
def entrySignals (qc : String) (qw : List String) (uni : String) : List ℚ :=
  (if strContains uni qc then [(9:ℚ)/10] else []) ++
  (if strContains qc uni then [(8:ℚ)/10] else []) ++
  (if qw.length > 0 ∧ (wordsOf uni).length > 0 then
     (if wordOverlapScore qw (wordsOf uni) > 3/10 then [wordOverlapScore qw (wordsOf uni)] else [])
   else []) ++
  (if abbrevSignal qc uni then [(19:ℚ)/20] else [])

/-- Score of one entry: the maximum of its signals, 0 when it has none. -/
def entryScore (qc : String) (qw : List String) (uni : String) : ℚ :=
  ((entrySignals qc qw uni).max?).getD 0

/-- One iteration of the scored pass (main.py lines 335-339): when the entry
has signals and their maximum strictly exceeds the best score so far, the
entry becomes the best match. -/
def scoredStep (qc : String) (qw : List String) (acc : Option UniEntry × ℚ)
    (e : UniEntry) : Option UniEntry × ℚ :=
  match (entrySignals qc qw (e.name.toLower.trim)).max? with
  | none => acc
  | some s => if s > acc.2 then (some e, s) else acc

/-- The scored pass over the whole catalog, starting from
`best_match = None`, `best_score = 0` (main.py lines 298-339). -/
def scoredPass (catalog : List UniEntry) (qc : String) (qw : List String) :
    Option UniEntry × ℚ :=
  catalog.foldl (scoredStep qc qw) (none, 0)

/-- The globally best per-entry score over the catalog (0 when the catalog
contributes no signal), used to state the threshold property. -/
def bestEntryScore (catalog : List UniEntry) (qc : String) (qw : List String) : ℚ :=
  catalog.foldl (fun b e => max b (entryScore qc qw (e.name.toLower.trim))) 0

/-- Model of `find_university_tier` (main.py lines 273-354): empty-catalog
escalation, exact case-insensitive pass, scored fuzzy pass with the 0.3
threshold, and escalation to the external assessment otherwise.  (The
duplicated best-match block at lines 346-350 is unreachable and has no
effect.) -/
def find_university_tier (catalog : List UniEntry) (q : String) : ResolutionOutcome :=
  if catalog.isEmpty then ResolutionOutcome.aiAssess
  else
    match catalog.find? (fun e => e.name.toLower.trim == q.trim.toLower) with
    | some e => ResolutionOutcome.exact e.tier e.rank
    | none =>
      match scoredPass catalog (q.trim.toLower) (wordsOf (q.trim.toLower)) with
      | (some e, bs) =>
        if bs > 3/10 then ResolutionOutcome.fuzzy e.tier e.rank bs
        else ResolutionOutcome.externalFallback
      | (none, _) => ResolutionOutcome.externalFallback

/-- Elite tier list of `_get_fallback_university_rating`
(robust_ai.py lines 457-460). -/
def elite_unis : List String :=
  ["harvard", "mit", "stanford", "yale", "princeton", "oxford", "cambridge",
   "iit bombay", "iit delhi", "iit madras", "iit kanpur", "iit kharagpur"]

/-- Top tier list (robust_ai.py lines 463-467). -/
def top_unis : List String :=
  ["columbia", "brown", "cornell", "dartmouth", "upenn", "berkeley", "ucla",
   "university of chicago", "northwestern", "duke", "johns hopkins",
   "iit roorkee", "iit guwahati", "iisc bangalore", "iim ahmedabad", "iim bangalore"]

/-- Good tier list (robust_ai.py lines 470-473). -/
def good_unis : List String :=
  ["university of michigan", "georgia tech", "carnegie mellon", "virginia tech",
   "nit trichy", "nit warangal", "nit surathkal", "bits pilani", "dtu", "nsit"]

/-- Model of `RobustUniversityAnalyzer._get_fallback_university_rating`
(robust_ai.py lines 450-492), the static rating used when the external
assessment call fails. -/
def fallback_university_rating (name : String) : String × Int :=
  let n := name.toLower.trim
  if elite_unis.any (fun u => strContains n u) then ("S+", 92)
  else if top_unis.any (fun u => strContains n u) then ("S", 85)
  else if good_unis.any (fun u => strContains n u) then ("A+", 75)
  else if containsAny n ["institute", "college", "university"] then ("B", 45)
  else ("C", 35)

/-- Catalog of the C5 scenario: a single entry for Massachusetts Institute
of Technology at tier S+ with rank 1. -/
def mitCatalog : List UniEntry :=
  [⟨"Massachusetts Institute of Technology", "S+", 1⟩]

/-- Concrete catalog used to witness the exact pass. -/
def witnessCatalogExact : List UniEntry :=
  [⟨"Indian Institute of Technology Bombay", "S+", 1⟩,
   ⟨"Harvard University", "S+", 2⟩]

/-- Concrete catalog used to witness the fuzzy threshold. -/
def witnessCatalogFuzzy : List UniEntry :=
  [⟨"Indian Institute of Technology Bombay", "S+", 1⟩]

instance descRelDecidable : DecidableRel (fun a b : ℚ => b ≤ a) :=
  fun a b => inferInstanceAs (Decidable (b ≤ a))

instance descRelTotal : IsTotal ℚ (fun a b : ℚ => b ≤ a) := ⟨fun a b => le_total b a⟩

instance descRelTrans : IsTrans ℚ (fun a b : ℚ => b ≤ a) :=
  ⟨fun _ _ _ h1 h2 => le_trans h2 h1⟩

/-- Model of Python `large_numbers.sort(reverse=True)`. -/
def sortDesc (l : List ℚ) : List ℚ := l.insertionSort (fun a b => b ≤ a)

/-- The largest-numbers stage of `get_brutal_career_estimate`
(robust_ai.py lines 199-207): keep the extracted number tokens strictly
above 10000, sort descending, take the largest as the lifetime figure, and
cap the second largest at 40 percent of the largest for the ten-year
figure.  Returns `none` when fewer than two tokens survive the magnitude
filter, in which case the Python code falls through to the next cascade
stage. -/
def largestNumbersStage (nums : List ℚ) : Option (ℚ × ℚ) :=
  if 2 ≤ (nums.filter (fun n => n > 10000)).length then
    some ((sortDesc (nums.filter (fun n => n > 10000))).getD 0 0,
      min ((sortDesc (nums.filter (fun n => n > 10000))).getD 1 0)
        ((sortDesc (nums.filter (fun n => n > 10000))).getD 0 0 * (4/10)))
  else none

/-- Base pair table of `_get_intelligent_fallback`
(robust_ai.py lines 334-363). -/
def fallbackBase (a : String) : ℚ × ℚ :=
  if containsAny a ["ai scientist", "ai engineer", "artificial intelligence", "openai"] then
    (3500000, 500000)
  else if containsAny a ["data scientist", "machine learning", "ml engineer", "ai researcher"] then
    (2800000, 420000)
  else if containsAny a ["research scientist", "computer scientist"] then (3000000, 450000)
  else if containsAny a ["software", "programmer", "developer", "tech"] then (2200000, 380000)
  else if containsAny a ["engineer", "technical"] then (2000000, 350000)
  else if containsAny a ["doctor", "physician"] then (3200000, 500000)
  else if containsAny a ["lawyer", "attorney"] then (2800000, 450000)
  else if containsAny a ["finance", "investment"] then (2500000, 420000)
  else if containsAny a ["consultant", "consulting"] then (2300000, 400000)
  else if containsAny a ["teacher", "education"] then (900000, 150000)
  else if containsAny a ["nurse", "healthcare"] then (1100000, 180000)
  else if containsAny a ["business", "entrepreneur"] then (1500000, 250000)
  else if containsAny a ["farm", "agriculture"] then (500000, 80000)
  else (1200000, 200000)

/-- Country multiplier table of `_get_intelligent_fallback`
(robust_ai.py lines 366-371); unlike the validation table it has no entries
below 4/10. -/
def fallback_country_multipliers : List (String × ℚ) :=
  [("usa", 1), ("united states", 1), ("america", 1),
   ("canada", 9/10), ("australia", 9/10), ("uk", 9/10), ("united kingdom", 9/10),
   ("germany", 8/10), ("france", 8/10), ("japan", 8/10), ("singapore", 9/10),
   ("india", 6/10), ("china", 5/10), ("brazil", 4/10), ("mexico", 4/10)]

/-- Model of `RobustCareerAnalyzer._get_intelligent_fallback`
(robust_ai.py lines 328-380): the category base pair scaled by the country
multiplier (default 1/2 for unknown countries) and returned directly. -/
def intelligent_fallback (asp country : String) : ℚ × ℚ :=
  ((fallbackBase (asp.toLower.trim)).1 *
      lookupD fallback_country_multipliers country.toLower (1/2),
   (fallbackBase (asp.toLower.trim)).2 *
      lookupD fallback_country_multipliers country.toLower (1/2))

/-- The largest-numbers stage followed by the validation clamp, as run at
robust_ai.py lines 199-214. -/
def largestThenValidate (nums : List ℚ) (asp country : String) : Option (ℚ × ℚ) :=
  match largestNumbersStage nums with
  | some p => some (intelligent_validation asp country p.1 p.2)
  | none => none

/-- The primary stage of `get_brutal_career_estimate`
(robust_ai.py lines 121-214): `primary` is `none` when the first generative
call raises, otherwise the pair of optional labeled parses
(`lifetime_nw`, `ten_year_nw`) together with the list of all number tokens
of the reply.  The Python truthiness test `if lifetime_nw and ten_year_nw`
also rejects a parsed value of 0, in which case the largest-numbers stage
runs on the token list. -/
def primaryStage (primary : Option ((Option ℚ × Option ℚ) × List ℚ))
    (asp country : String) : Option (ℚ × ℚ) :=
  match primary with
  | none => none
  | some (labeled, allNums) =>
    match labeled with
    | (some l, some t) =>
      if l ≠ 0 ∧ t ≠ 0 then some (intelligent_validation asp country l t)
      else largestThenValidate allNums asp country
    | _ => largestThenValidate allNums asp country

/-- The secondary stage of `get_brutal_career_estimate`
(robust_ai.py lines 220-257): `secondary` is `none` when the second
generative call raises, otherwise the list of six-or-more digit tokens of
its reply; the first two are taken, swapped if out of order, and validated.
With fewer than two tokens the tertiary intelligent fallback runs
(robust_ai.py lines 259-261). -/
def secondaryStage (secondary : Option (List ℚ)) (asp country : String) : ℚ × ℚ :=
  match secondary with
  | some ns =>
    if 2 ≤ ns.length then
      if ns.getD 1 0 > ns.getD 0 0 then
        intelligent_validation asp country (ns.getD 1 0) (ns.getD 0 0)
      else intelligent_validation asp country (ns.getD 0 0) (ns.getD 1 0)
    else intelligent_fallback asp country
  | none => intelligent_fallback asp country

/-- Deterministic skeleton of `get_brutal_career_estimate`
(robust_ai.py lines 114-261): the primary stage, then the secondary stage. -/
def careerCascade (primary : Option ((Option ℚ × Option ℚ) × List ℚ))
    (secondary : Option (List ℚ)) (asp country : String) : ℚ × ℚ :=
  match primaryStage primary asp country with
  | some p => p
  | none => secondaryStage secondary asp country

/-- Tier fallback probability table of `get_success_probability`
(main.py lines 713-716). -/
def tierProbabilities : List (String × ℚ) :=
  [("S+", 85/100), ("S", 75/100), ("A+", 65/100), ("A", 55/100),
   ("B+", 45/100), ("B", 35/100), ("C", 25/100)]

/-- The clamp `max(0.1, min(0.95, p))` applied to every probability the
function returns (main.py lines 685, 694, 708, 726). -/
def clampProb (p : ℚ) : ℚ := max (1/10) (min (19/20) p)

/-- Tier-and-age fallback probability (main.py lines 712-726): the tier
table with default 0.4, a bonus of 0.05 up to age 22, a penalty of 0.05
from age 30, then the clamp. -/
def tierFallbackProb (tier : String) (age : ℤ) : ℚ :=
  let base := lookupD tierProbabilities tier (4/10)
  let adjusted :=
    if age ≤ 22 then base + 5/100
    else if age ≥ 30 then base - 5/100 else base
  clampProb adjusted

/-- Deterministic skeleton of `get_success_probability`
(main.py lines 634-731).  `parsed` is the probability recovered by the
PROBABILITY pattern; the in-try secondary parse at line 691 reads the
undefined name `content` and therefore always raises into the exception
handler, so the remaining reachable paths are the simple retry parse
(`simpleParsed`) and the tier fallback. -/
def get_success_probability (parsed simpleParsed : Option ℚ) (tier : String)
    (age : ℤ) : ℚ :=
  match parsed with
  | some p => clampProb p
  | none =>
    match simpleParsed with
    | some p => clampProb p
    | none => tierFallbackProb tier age

section ClampLemmas

/-- Bounds established by one application of the robust_ai clamp core. -/
lemma clampPair_bounds (maxL maxT L T : ℚ) (hL : 50000 ≤ maxL) (hT : 10000 ≤ maxT) :
    50000 ≤ (clampPair maxL maxT L T).1 ∧
    (clampPair maxL maxT L T).1 ≤ maxL ∧
    10000 ≤ (clampPair maxL maxT L T).2 ∧
    (clampPair maxL maxT L T).2 ≤ maxT ∧
    (clampPair maxL maxT L T).2 ≤ (clampPair maxL maxT L T).1 * (7/10) := by
  simp only [clampPair]
  refine ⟨le_max_left _ _, ?_, le_max_left _ _, ?_, ?_⟩
  · refine max_le hL ?_
    split_ifs <;> linarith
  · refine max_le hT ?_
    split_ifs <;> linarith
  · refine max_le ?_ ?_
    · have h1 := le_max_left (50000 : ℚ) (if L > maxL then maxL else L)
      linarith
    · have h1 := le_max_left (50000 : ℚ) (if L > maxL then maxL else L)
      have h2 := le_max_right (50000 : ℚ) (if L > maxL then maxL else L)
      split_ifs at h1 h2 ⊢ <;> linarith

/-- Pairs already satisfying the clamp bounds are fixed by the robust_ai
clamp core. -/
lemma clampPair_fixed (maxL maxT L T : ℚ) (h1 : 50000 ≤ L) (h2 : L ≤ maxL)
    (h3 : 10000 ≤ T) (h4 : T ≤ maxT) (h5 : T ≤ L * (7/10)) :
    clampPair maxL maxT L T = (L, T) := by
  simp only [clampPair]
  rw [if_neg (not_lt.mpr h2), if_neg (not_lt.mpr h4), if_neg (not_lt.mpr h5),
    max_eq_right h1, max_eq_right h3]

/-- The robust_ai clamp core is idempotent whenever the caps dominate the
floors. -/
lemma clampPair_idem (maxL maxT L T : ℚ) (hL : 50000 ≤ maxL) (hT : 10000 ≤ maxT) :
    clampPair maxL maxT (clampPair maxL maxT L T).1 (clampPair maxL maxT L T).2 =
      clampPair maxL maxT L T := by
  obtain ⟨b1, b2, b3, b4, b5⟩ := clampPair_bounds maxL maxT L T hL hT
  rw [clampPair_fixed _ _ _ _ b1 b2 b3 b4 b5]

/-- Every category cap pair of robust_ai dominates (600000, 120000). -/
lemma categoryCaps_bounds (a : String) :
    600000 ≤ (categoryCaps a).1 ∧ 120000 ≤ (categoryCaps a).2 := by
  unfold categoryCaps
  split_ifs <;> norm_num

/-- Association-list lookups inherit a lower bound satisfied by all table
values and by the default. -/
lemma lookupD_bound (l : List (String × ℚ)) (k : String) (d c : ℚ)
    (hl : ∀ p ∈ l, c ≤ p.2) (hd : c ≤ d) : c ≤ lookupD l k d := by
  unfold lookupD
  cases h : l.find? (fun p => p.1 == k) with
  | none => exact hd
  | some p => exact hl p (List.mem_of_find?_eq_some h)

/-- Every country multiplier of robust_ai is at least 3/10 (the default for
unknown countries is 1/2). -/
lemma country_multiplier_bound (k : String) :
    3/10 ≤ lookupD country_multipliers k (1/2) := by
  refine lookupD_bound _ _ _ _ ?_ (by norm_num)
  intro p hp
  fin_cases hp <;> norm_num

/-- The country-scaled category caps of robust_ai dominate the floors. -/
lemma scaled_caps_bounds (a k : String) :
    50000 ≤ (categoryCaps a).1 * lookupD country_multipliers k (1/2) ∧
    10000 ≤ (categoryCaps a).2 * lookupD country_multipliers k (1/2) := by
  obtain ⟨h1, h2⟩ := categoryCaps_bounds a
  have hm := country_multiplier_bound k
  constructor
  · calc (50000 : ℚ) ≤ 600000 * (3/10) := by norm_num
    _ ≤ (categoryCaps a).1 * lookupD country_multipliers k (1/2) :=
        mul_le_mul h1 hm (by norm_num) (by linarith)
  · calc (10000 : ℚ) ≤ 120000 * (3/10) := by norm_num
    _ ≤ (categoryCaps a).2 * lookupD country_multipliers k (1/2) :=
        mul_le_mul h2 hm (by norm_num) (by linarith)

/-- Bounds established by one application of the main.py clamp core. -/
lemma wealthClampPair_bounds (caps : Option (ℚ × ℚ)) (L T : ℚ)
    (hc : ∀ c ∈ caps, 50000 ≤ c.1 ∧ c.1 ≤ 20000000 ∧ 10000 ≤ c.2) :
    50000 ≤ (wealthClampPair caps L T).1 ∧
    (wealthClampPair caps L T).1 ≤ 20000000 ∧
    (∀ c ∈ caps, (wealthClampPair caps L T).1 ≤ c.1 ∧ (wealthClampPair caps L T).2 ≤ c.2) ∧
    10000 ≤ (wealthClampPair caps L T).2 ∧
    (wealthClampPair caps L T).2 ≤ (wealthClampPair caps L T).1 * (6/10) := by
  cases caps with
  | none =>
    simp only [wealthClampPair, Option.mem_def, reduceCtorEq, false_implies, imp_false,
      forall_const, true_and]
    refine ⟨?_, ?_, ?_, ?_⟩
    · split_ifs <;> linarith
    · split_ifs <;> linarith
    · split_ifs <;> linarith
    · split_ifs <;> linarith
  | some c =>
    obtain ⟨hc1, hc2, hc3⟩ := hc c rfl
    simp only [wealthClampPair, Option.mem_def, Option.some.injEq]
    refine ⟨?_, ?_, ?_, ?_, ?_⟩
    · split_ifs <;> linarith
    · split_ifs <;> linarith
    · rintro c' rfl
      constructor
      · split_ifs <;> linarith
      · split_ifs <;> linarith
    · split_ifs <;> linarith
    · split_ifs <;> linarith

/-- Pairs already satisfying the clamp bounds are fixed by the main.py
clamp core. -/
lemma wealthClampPair_fixed (caps : Option (ℚ × ℚ)) (L T : ℚ)
    (h1 : 50000 ≤ L) (h2 : L ≤ 20000000)
    (hcap : ∀ c ∈ caps, L ≤ c.1 ∧ T ≤ c.2)
    (h3 : 10000 ≤ T) (h5 : T ≤ L * (6/10)) :
    wealthClampPair caps L T = (L, T) := by
  cases caps with
  | none =>
    simp only [wealthClampPair]
    rw [if_neg (not_lt.mpr h2), if_neg (not_lt.mpr h5), if_neg (not_lt.mpr h1),
      if_neg (not_lt.mpr h3)]
  | some c =>
    obtain ⟨hcL, hcT⟩ := hcap c rfl
    simp only [wealthClampPair]
    rw [if_neg (not_lt.mpr hcL), if_neg (not_lt.mpr hcT), if_neg (not_lt.mpr h2),
      if_neg (not_lt.mpr h5), if_neg (not_lt.mpr h1), if_neg (not_lt.mpr h3)]

/-- Every cap pair in the main.py career table dominates the floors and sits
below the global ceiling. -/
lemma capsOf_bounds (asp : String) :
    ∀ c ∈ capsOf asp, 50000 ≤ c.1 ∧ c.1 ≤ 20000000 ∧ 10000 ≤ c.2 := by
  have htab : ∀ p ∈ career_caps, 50000 ≤ p.2.1 ∧ p.2.1 ≤ 20000000 ∧ 10000 ≤ p.2.2 := by
    intro p hp
    fin_cases hp <;> norm_num
  intro c hcmem
  unfold capsOf at hcmem
  cases h : career_caps.find? (fun p => strContains asp.toLower p.1) with
  | none => rw [h] at hcmem; simp at hcmem
  | some p =>
    rw [h] at hcmem
    have hpc : p.2 = c := by simpa using hcmem
    rw [← hpc]
    exact htab p (List.mem_of_find?_eq_some h)

end ClampLemmas

/-- Claim C1: the validation clamp is idempotent.  For every category
(aspiration) string, country string and numeric pair, re-applying the clamp
to its own output is a no-op.  This holds for both clamps the system uses:
`_intelligent_validation` in robust_ai.py and `validate_wealth_estimates` in
main.py (the latter takes no country argument in the source). -/
theorem clamp_idempotent (asp country : String) (L T : ℚ) :
    intelligent_validation asp country
        (intelligent_validation asp country L T).1
        (intelligent_validation asp country L T).2 =
      intelligent_validation asp country L T ∧
    validate_wealth_estimates asp
        (validate_wealth_estimates asp L T).1
        (validate_wealth_estimates asp L T).2 =
      validate_wealth_estimates asp L T := by
  constructor
  · obtain ⟨hL, hT⟩ := scaled_caps_bounds (asp.toLower.trim) country.toLower
    unfold intelligent_validation
    exact clampPair_idem _ _ L T hL hT
  · obtain ⟨b1, b2, b3, b4, b5⟩ := wealthClampPair_bounds (capsOf asp) L T (capsOf_bounds asp)
    unfold validate_wealth_estimates
    rw [wealthClampPair_fixed _ _ _ b1 b2 b3 b4 b5]

/-- Counterexample to claim C2: the validation clamp of robust_ai.py
(`_intelligent_validation`, the one on the live prediction path) enforces
the ratio threshold 0.7, not 0.6: for an unrecognized category in usa the
input pair (100000, 70000) passes through unchanged, and 70000 exceeds
60 percent of 100000. -/
theorem ratio_invariant_counterexample :
    intelligent_validation "quant" "usa" 100000 70000 = (100000, 70000) ∧
    (intelligent_validation "quant" "usa" 100000 70000).2 >
      (intelligent_validation "quant" "usa" 100000 70000).1 * (6/10) := by
  have h : intelligent_validation "quant" "usa" 100000 70000 = (100000, 70000) := by
    with_unfolding_all rfl
  refine ⟨h, ?_⟩
  rw [h]
  norm_num

/-- Claim C2 (amended): the pair returned by the main.py validation clamp
(`validate_wealth_estimates`, the function realizing the 0.6 / 0.3 ratio
rule of the specification) satisfies `short ≤ long * 0.6` (hence
`short ≤ long * 0.6 + ε` for every nonnegative tolerance) and
`short ≤ long`; the robust_ai.py clamp (`_intelligent_validation`)
guarantees only the weaker `short ≤ long * 0.7`, together with
`short ≤ long`. -/
theorem ratio_invariant (asp country : String) (L T : ℚ) :
    (validate_wealth_estimates asp L T).2 ≤ (validate_wealth_estimates asp L T).1 * (6/10) ∧
    (validate_wealth_estimates asp L T).2 ≤ (validate_wealth_estimates asp L T).1 ∧
    (intelligent_validation asp country L T).2 ≤
      (intelligent_validation asp country L T).1 * (7/10) ∧
    (intelligent_validation asp country L T).2 ≤ (intelligent_validation asp country L T).1 := by
  obtain ⟨b1, _, _, _, b5⟩ := wealthClampPair_bounds (capsOf asp) L T (capsOf_bounds asp)
  obtain ⟨hL, hT⟩ := scaled_caps_bounds (asp.toLower.trim) country.toLower
  obtain ⟨r1, _, _, _, r5⟩ :=
    clampPair_bounds
      ((categoryCaps (asp.toLower.trim)).1 * lookupD country_multipliers country.toLower (1/2))
      ((categoryCaps (asp.toLower.trim)).2 * lookupD country_multipliers country.toLower (1/2))
      L T hL hT
  refine ⟨b5, by unfold validate_wealth_estimates; linarith, r5, ?_⟩
  unfold intelligent_validation
  linarith

/-- Claim C8: the pair returned by the validation clamp satisfies the fixed
floors, `long ≥ 50000` and `short ≥ 10000`, for both clamps of the system
(`_intelligent_validation` in robust_ai.py and `validate_wealth_estimates`
in main.py). -/
theorem floor_invariant (asp country : String) (L T : ℚ) :
    50000 ≤ (intelligent_validation asp country L T).1 ∧
    10000 ≤ (intelligent_validation asp country L T).2 ∧
    50000 ≤ (validate_wealth_estimates asp L T).1 ∧
    10000 ≤ (validate_wealth_estimates asp L T).2 := by
  obtain ⟨hL, hT⟩ := scaled_caps_bounds (asp.toLower.trim) country.toLower
  obtain ⟨r1, r2, r3, r4, r5⟩ :=
    clampPair_bounds
      ((categoryCaps (asp.toLower.trim)).1 * lookupD country_multipliers country.toLower (1/2))
      ((categoryCaps (asp.toLower.trim)).2 * lookupD country_multipliers country.toLower (1/2))
      L T hL hT
  obtain ⟨w1, _, _, w4, _⟩ := wealthClampPair_bounds (capsOf asp) L T (capsOf_bounds asp)
  exact ⟨r1, r3, w1, w4⟩

section ResolverLemmas

/-- The scored pass computes exactly the running maximum of the per-entry
scores, its score is nonnegative, and a missing best match means the best
score is still 0. -/
lemma scoredPass_aux (qc : String) (qw : List String) (catalog : List UniEntry) :
    ∀ acc : Option UniEntry × ℚ, 0 ≤ acc.2 → (acc.1 = none → acc.2 = 0) →
      (catalog.foldl (scoredStep qc qw) acc).2 =
        catalog.foldl (fun b e => max b (entryScore qc qw (e.name.toLower.trim))) acc.2 ∧
      0 ≤ (catalog.foldl (scoredStep qc qw) acc).2 ∧
      ((catalog.foldl (scoredStep qc qw) acc).1 = none →
        (catalog.foldl (scoredStep qc qw) acc).2 = 0) := by
  induction catalog with
  | nil => exact fun acc h0 hn => ⟨rfl, h0, hn⟩
  | cons e t ih =>
    intro acc h0 hn
    simp only [List.foldl_cons]
    rcases hs : (entrySignals qc qw (e.name.toLower.trim)).max? with _ | s
    · have hstep : scoredStep qc qw acc e = acc := by
        unfold scoredStep; rw [hs]
      have hes : entryScore qc qw (e.name.toLower.trim) = 0 := by
        unfold entryScore; rw [hs]; rfl
      rw [hstep, hes, max_eq_left h0]
      exact ih acc h0 hn
    · have hes : entryScore qc qw (e.name.toLower.trim) = s := by
        unfold entryScore; rw [hs]; rfl
      have hstep : scoredStep qc qw acc e = if s > acc.2 then (some e, s) else acc := by
        unfold scoredStep; rw [hs]
      by_cases hgt : s > acc.2
      · rw [hstep, if_pos hgt]
        have hmax : max acc.2 (entryScore qc qw (e.name.toLower.trim)) = s := by
          rw [hes]; exact max_eq_right (le_of_lt hgt)
        rw [hmax]
        exact ih (some e, s) (le_of_lt (lt_of_le_of_lt h0 hgt))
          (fun hh => Option.noConfusion hh)
      · rw [hstep, if_neg hgt]
        have hmax : max acc.2 (entryScore qc qw (e.name.toLower.trim)) = acc.2 := by
          rw [hes]; exact max_eq_left (not_lt.mp hgt)
        rw [hmax]
        exact ih acc h0 hn

end ResolverLemmas

/-- Claim C3: if the trimmed, lowercased query equals the trimmed,
lowercased name of some catalog entry, `find_university_tier` returns via
the exact pass, producing the tier and rank of the first such entry,
before any scored comparison and regardless of near-duplicate entries. -/
theorem exact_match_precedence (catalog : List UniEntry) (q : String)
    (h : ∃ e ∈ catalog, e.name.toLower.trim = q.trim.toLower) :
    ∃ e ∈ catalog, e.name.toLower.trim = q.trim.toLower ∧
      find_university_tier catalog q = ResolutionOutcome.exact e.tier e.rank := by
  obtain ⟨e0, he0, heq0⟩ := h
  have hempty : catalog.isEmpty = false := by
    cases catalog with
    | nil => cases he0
    | cons a t => rfl
  rcases hf : catalog.find? (fun e => e.name.toLower.trim == q.trim.toLower) with _ | e
  · exfalso
    have hall := List.find?_eq_none.mp hf e0 he0
    simp [heq0] at hall
  · have hmem := List.mem_of_find?_eq_some hf
    have hpred := List.find?_some hf
    refine ⟨e, hmem, by simpa using hpred, ?_⟩
    unfold find_university_tier
    rw [hempty, hf]
    rfl

/-- Witness for C3: an exact match on the second catalog entry. -/
theorem exact_match_precedence_witness :
    ∃ e ∈ witnessCatalogExact, e.name.toLower.trim = "Harvard University".trim.toLower ∧
      find_university_tier witnessCatalogExact "Harvard University" =
        ResolutionOutcome.exact e.tier e.rank :=
  exact_match_precedence witnessCatalogExact "Harvard University"
    ⟨⟨"Harvard University", "S+", 2⟩, by simp [witnessCatalogExact],
      by
        have h1 : ({ name := "Harvard University", tier := "S+", rank := 2 } :
            UniEntry).name.toLower.trim = "harvard university" := by with_unfolding_all rfl
        have h2 : "Harvard University".trim.toLower = "harvard university" := by
          with_unfolding_all rfl
        rw [h1, h2]⟩

/-- Claim C4: with no exact match, the scored pass returns a fuzzy result
with the globally best per-entry score as its confidence exactly when that
best score strictly exceeds 0.3; otherwise the resolver escalates to the
external assessment. -/
theorem fuzzy_threshold (catalog : List UniEntry) (q : String)
    (hne : catalog ≠ [])
    (hnx : ∀ e ∈ catalog, ¬ e.name.toLower.trim = q.trim.toLower) :
    ((3/10 : ℚ) < bestEntryScore catalog (q.trim.toLower) (wordsOf (q.trim.toLower)) ↔
      ∃ tier rank, find_university_tier catalog q =
        ResolutionOutcome.fuzzy tier rank
          (bestEntryScore catalog (q.trim.toLower) (wordsOf (q.trim.toLower)))) ∧
    (bestEntryScore catalog (q.trim.toLower) (wordsOf (q.trim.toLower)) ≤ 3/10 →
      find_university_tier catalog q = ResolutionOutcome.externalFallback) := by
  have hempty : catalog.isEmpty = false := by
    cases catalog with
    | nil => exact absurd rfl hne
    | cons a t => rfl
  have hfind : catalog.find? (fun e => e.name.toLower.trim == q.trim.toLower) = none := by
    apply List.find?_eq_none.mpr
    intro e he
    simpa using hnx e he
  obtain ⟨haux1, haux2, haux3⟩ :=
    scoredPass_aux (q.trim.toLower) (wordsOf (q.trim.toLower)) catalog (none, 0)
      le_rfl (fun _ => rfl)
  have hform : find_university_tier catalog q =
      (match catalog.foldl (scoredStep (q.trim.toLower) (wordsOf (q.trim.toLower))) (none, 0) with
       | (some e, bs) =>
         if bs > 3/10 then ResolutionOutcome.fuzzy e.tier e.rank bs
         else ResolutionOutcome.externalFallback
       | (none, _) => ResolutionOutcome.externalFallback) := by
    unfold find_university_tier scoredPass
    rw [hempty, hfind]
    rfl
  rcases hsp : catalog.foldl (scoredStep (q.trim.toLower) (wordsOf (q.trim.toLower))) (none, 0)
    with ⟨mo, bs⟩
  rw [hsp] at hform haux1 haux3
  dsimp only at haux1 haux3
  have hbs : bestEntryScore catalog (q.trim.toLower) (wordsOf (q.trim.toLower)) = bs := by
    unfold bestEntryScore
    exact haux1.symm
  cases mo with
  | none =>
    have hform2 : find_university_tier catalog q = ResolutionOutcome.externalFallback := hform
    have hz : bs = 0 := haux3 rfl
    constructor
    · constructor
      · intro hlt
        rw [hbs, hz] at hlt
        norm_num at hlt
      · rintro ⟨tier, rank, hfz⟩
        rw [hform2] at hfz
        exact ResolutionOutcome.noConfusion hfz
    · intro _
      exact hform2
  | some e =>
    by_cases hgt : bs > 3/10
    · have hform2 : find_university_tier catalog q =
          ResolutionOutcome.fuzzy e.tier e.rank bs := by
        rw [hform]
        exact if_pos hgt
      constructor
      · constructor
        · intro _
          exact ⟨e.tier, e.rank, by rw [hform2, hbs]⟩
        · intro _
          rw [hbs]
          exact hgt
      · intro hle
        rw [hbs] at hle
        linarith
    · have hform2 : find_university_tier catalog q = ResolutionOutcome.externalFallback := by
        rw [hform]
        exact if_neg hgt
      constructor
      · constructor
        · intro hlt
          rw [hbs] at hlt
          exact absurd hlt hgt
        · rintro ⟨tier, rank, hfz⟩
          rw [hform2] at hfz
          exact ResolutionOutcome.noConfusion hfz
      · intro _
        exact hform2

/-- Witness for C4: the query is a substring of the single entry, so the
best score is 0.9 and a fuzzy result is returned. -/
theorem fuzzy_threshold_witness :
    ∃ tier rank, find_university_tier witnessCatalogFuzzy "indian institute" =
      ResolutionOutcome.fuzzy tier rank
        (bestEntryScore witnessCatalogFuzzy ("indian institute".trim.toLower)
          (wordsOf ("indian institute".trim.toLower))) :=
  ((fuzzy_threshold witnessCatalogFuzzy "indian institute"
      (by simp [witnessCatalogFuzzy])
      (by
        intro e he
        simp only [witnessCatalogFuzzy, List.mem_singleton] at he
        subst he
        exact of_decide_eq_false (by with_unfolding_all rfl))).1).mp
    (by
      have hval : bestEntryScore witnessCatalogFuzzy ("indian institute".trim.toLower)
          (wordsOf ("indian institute".trim.toLower)) = 9/10 := by with_unfolding_all rfl
      rw [hval]
      norm_num)

/-- Counterexample to claim C5: on the scenario catalog, the query mit
matches no fuzzy signal at all (it is not a substring of the entry name,
shares no word with it, and contains no abbreviation token), so the
resolver does not return a fuzzy result: it escalates to the external
assessment. -/
theorem mit_not_fuzzy :
    ¬ ∃ tier rank score, find_university_tier mitCatalog "mit" =
      ResolutionOutcome.fuzzy tier rank score := by
  have h : find_university_tier mitCatalog "mit" = ResolutionOutcome.externalFallback := by
    with_unfolding_all rfl
  rintro ⟨tier, rank, score, hfz⟩
  rw [h] at hfz
  exact ResolutionOutcome.noConfusion hfz

/-- Claim C5 (amended): resolving the query mit against the scenario
catalog yields no exact and no fuzzy match, so the resolver escalates to
the external assessment path; the static fallback rating of that path
classifies mit as tier S+ (with score 92). -/
theorem mit_external_fallback :
    find_university_tier mitCatalog "mit" = ResolutionOutcome.externalFallback ∧
    fallback_university_rating "mit" = ("S+", 92) :=
  ⟨by with_unfolding_all rfl, by with_unfolding_all rfl⟩

section ExtractionLemmas

lemma sortDesc_sorted (l : List ℚ) : (sortDesc l).Sorted (fun a b : ℚ => b ≤ a) :=
  List.sorted_insertionSort _ l

lemma sortDesc_perm (l : List ℚ) : List.Perm (sortDesc l) l :=
  List.perm_insertionSort _ l

end ExtractionLemmas

/-- Claim C6: when at least two number tokens exceed the minimum magnitude
10000, the largest-numbers stage keeps exactly those tokens and assigns the
largest (`M`) to the lifetime figure and the minimum of the second largest
(`M2`) and 40 percent of the largest to the ten-year figure. -/
theorem largest_numbers_stage_spec (nums : List ℚ) (M M2 : ℚ)
    (hMmem : M ∈ nums.filter (fun n => n > 10000))
    (hMub : ∀ x ∈ nums.filter (fun n => n > 10000), x ≤ M)
    (hM2mem : M2 ∈ (nums.filter (fun n => n > 10000)).erase M)
    (hM2ub : ∀ x ∈ (nums.filter (fun n => n > 10000)).erase M, x ≤ M2) :
    largestNumbersStage nums = some (M, min M2 (M * (4/10))) := by
  have hlen : 2 ≤ (nums.filter (fun n => n > 10000)).length := by
    have h1 := List.length_erase_of_mem hMmem
    have h2 := List.length_pos_of_mem hM2mem
    omega
  have hperm := sortDesc_perm (nums.filter (fun n => n > 10000))
  have hsorted := sortDesc_sorted (nums.filter (fun n => n > 10000))
  have hslen : 2 ≤ (sortDesc (nums.filter (fun n => n > 10000))).length := by
    rw [hperm.length_eq]
    exact hlen
  rcases hs : sortDesc (nums.filter (fun n => n > 10000)) with _ | ⟨a, _ | ⟨b, t⟩⟩
  · rw [hs] at hslen
    simp at hslen
  · rw [hs] at hslen
    simp at hslen
  · rw [hs] at hperm hsorted
    have hamem : a ∈ nums.filter (fun n => n > 10000) := hperm.mem_iff.mp (by simp)
    have hMa : M ≤ a := by
      rcases List.mem_cons.mp (hperm.mem_iff.mpr hMmem) with hMa | hMs
      · exact le_of_eq hMa
      · exact List.rel_of_sorted_cons hsorted M hMs
    have haM : a = M := le_antisymm (hMub a hamem) hMa
    rw [← haM] at hM2mem hM2ub
    have htail : List.Perm (b :: t) ((nums.filter (fun n => n > 10000)).erase a) := by
      have h2 := hperm.erase a
      rwa [List.erase_cons_head] at h2
    have hbmem : b ∈ (nums.filter (fun n => n > 10000)).erase a := htail.mem_iff.mp (by simp)
    have hM2b : M2 ≤ b := by
      rcases List.mem_cons.mp (htail.mem_iff.mpr hM2mem) with hM2b | hM2t
      · exact le_of_eq hM2b
      · exact List.rel_of_sorted_cons (List.Sorted.of_cons hsorted) M2 hM2t
    have hbM2 : b = M2 := le_antisymm (hM2ub b hbmem) hM2b
    simp only [largestNumbersStage]
    rw [if_pos hlen, hs, ← haM, ← hbM2]
    rfl

/-- Witness for C6: the scenario token list with two large tokens among
small ones. -/
theorem largest_numbers_stage_witness :
    largestNumbersStage [30, 2024, 1500000, 300000] = some (1500000, 300000) := by
  have hfil : ([30, 2024, 1500000, 300000] : List ℚ).filter (fun n => n > 10000) =
      [1500000, 300000] := by with_unfolding_all rfl
  have herase : (([1500000, 300000] : List ℚ)).erase 1500000 = [300000] :=
    List.erase_cons_head _ _
  have h := largest_numbers_stage_spec [30, 2024, 1500000, 300000] 1500000 300000
    (by rw [hfil]; simp)
    (by
      rw [hfil]
      intro x hx
      rcases List.mem_cons.mp hx with rfl | hx
      · norm_num
      · rcases List.mem_singleton.mp hx with rfl
        norm_num)
    (by rw [hfil, herase]; simp)
    (by
      rw [hfil, herase]
      intro x hx
      rcases List.mem_singleton.mp hx with rfl
      norm_num)
  have hmin : min (300000:ℚ) (1500000 * (4/10)) = 300000 :=
    min_eq_left (by norm_num)
  rw [h, hmin]

section CascadeLemmas

lemma secondaryStage_exhausted (secondary : Option (List ℚ)) (asp country : String)
    (h2 : ∀ ns ∈ secondary, ns.length < 2) :
    secondaryStage secondary asp country = intelligent_fallback asp country := by
  cases secondary with
  | none => rfl
  | some ns =>
    have hns := h2 ns rfl
    simp only [secondaryStage]
    rw [if_neg (not_le.mpr hns)]

end CascadeLemmas

/-- Counterexample to claim C7: at cascade exhaustion the code returns the
scaled base pair of the intelligent fallback directly, and that pair is not
a fixed point of the validation clamp, so it is not the pair one would get
by passing the scaled base through ValidationClamp as the claim states.
For aspiration ai scientist in usa the fallback returns (3500000, 500000)
while clamping that pair yields (2500000, 400000). -/
theorem cascade_fallback_not_clamped :
    careerCascade none none "ai scientist" "usa" = (3500000, 500000) ∧
    intelligent_validation "ai scientist" "usa" 3500000 500000 = (2500000, 400000) := by
  constructor
  · with_unfolding_all rfl
  · with_unfolding_all rfl

/-- Claim C7 (amended): when the numeric extraction cascade is exhausted
(no labeled parse, fewer than two number tokens above the minimum magnitude
in the primary reply, fewer than two tokens in the secondary reply, or the
calls raised), the pipeline does not raise and does not fabricate numbers:
it returns the static category-and-country base pair scaled by the country
multiplier, directly and without passing it through the validation clamp. -/
theorem cascade_exhaustion_fallback (asp country : String) (allNums : List ℚ)
    (secondary : Option (List ℚ))
    (h1 : (allNums.filter (fun n => n > 10000)).length < 2)
    (h2 : ∀ ns ∈ secondary, ns.length < 2) :
    careerCascade (some ((none, none), allNums)) secondary asp country =
      intelligent_fallback asp country ∧
    careerCascade none secondary asp country = intelligent_fallback asp country := by
  have hstage : largestNumbersStage allNums = none := by
    simp only [largestNumbersStage]
    rw [if_neg (not_le.mpr h1)]
  have hltv : largestThenValidate allNums asp country = none := by
    simp only [largestThenValidate]
    rw [hstage]
  constructor
  · have hps : primaryStage (some ((none, none), allNums)) asp country = none := by
      simp only [primaryStage]
      exact hltv
    simp only [careerCascade]
    rw [hps]
    exact secondaryStage_exhausted secondary asp country h2
  · simp only [careerCascade]
    have hps : primaryStage none asp country = none := rfl
    rw [hps]
    exact secondaryStage_exhausted secondary asp country h2

/-- Witness for C7: no labeled parse, only small number tokens, and a
failed secondary call yield the fallback pair for ai scientist in usa. -/
theorem cascade_exhaustion_fallback_witness :
    careerCascade (some ((none, none), [5, 2024])) none "ai scientist" "usa" =
      (3500000, 500000) := by
  have hfil : (([5, 2024] : List ℚ).filter (fun n => n > 10000)).length < 2 := by
    have h : ([5, 2024] : List ℚ).filter (fun n => n > 10000) = [] := by
      with_unfolding_all rfl
    rw [h]
    norm_num
  have h := (cascade_exhaustion_fallback "ai scientist" "usa" [5, 2024] none hfil
    (by intro ns hns; exact absurd hns (by simp))).1
  rw [h]
  with_unfolding_all rfl

/-- Claim C9: every value returned as the success probability lies in the
closed interval from 0.1 to 0.95: each parsed path is clamped by
`max(0.1, min(0.95, p))` and the tier-based fallback ends in the same
clamp. -/
theorem success_probability_range (parsed simpleParsed : Option ℚ) (tier : String)
    (age : ℤ) :
    1/10 ≤ get_success_probability parsed simpleParsed tier age ∧
    get_success_probability parsed simpleParsed tier age ≤ 19/20 := by
  have hc : ∀ p : ℚ, 1/10 ≤ clampProb p ∧ clampProb p ≤ 19/20 := fun p =>
    ⟨le_max_left _ _, max_le (by norm_num) (min_le_left _ _)⟩
  cases parsed with
  | some p => exact hc p
  | none =>
    cases simpleParsed with
    | some p => exact hc p
    | none => exact hc _

section FallbackLemmas

/-- Bound transport through one step of a pair-valued elif chain. -/
lemma ifPair_bounds (c : Prop) [Decidable c] (x y : ℚ × ℚ)
    (hx : 0 < x.2 ∧ x.2 < x.1) (hy : 0 < y.2 ∧ y.2 < y.1) :
    0 < (if c then x else y).2 ∧ (if c then x else y).2 < (if c then x else y).1 := by
  split_ifs <;> assumption

lemma fallbackBase_bounds (a : String) :
    0 < (fallbackBase a).2 ∧ (fallbackBase a).2 < (fallbackBase a).1 := by
  unfold fallbackBase
  refine ifPair_bounds _ _ _ (by norm_num) ?_
  refine ifPair_bounds _ _ _ (by norm_num) ?_
  refine ifPair_bounds _ _ _ (by norm_num) ?_
  refine ifPair_bounds _ _ _ (by norm_num) ?_
  refine ifPair_bounds _ _ _ (by norm_num) ?_
  refine ifPair_bounds _ _ _ (by norm_num) ?_
  refine ifPair_bounds _ _ _ (by norm_num) ?_
  refine ifPair_bounds _ _ _ (by norm_num) ?_
  refine ifPair_bounds _ _ _ (by norm_num) ?_
  refine ifPair_bounds _ _ _ (by norm_num) ?_
  refine ifPair_bounds _ _ _ (by norm_num) ?_
  refine ifPair_bounds _ _ _ (by norm_num) ?_
  refine ifPair_bounds _ _ _ (by norm_num) ?_
  norm_num

lemma fallback_multiplier_bound (k : String) :
    2/5 ≤ lookupD fallback_country_multipliers k (1/2) := by
  refine lookupD_bound _ _ _ _ ?_ (by norm_num)
  intro p hp
  fin_cases hp <;> norm_num

end FallbackLemmas

/-- Claim C10: for every aspiration and country the intelligent fallback
returns a pair with both components strictly positive and the ten-year
figure strictly below the lifetime figure, even though this pair is
returned directly without passing through the validation clamp. -/
theorem intelligent_fallback_positive (asp country : String) :
    0 < (intelligent_fallback asp country).1 ∧
    0 < (intelligent_fallback asp country).2 ∧
    (intelligent_fallback asp country).2 < (intelligent_fallback asp country).1 := by
  obtain ⟨h1, h2⟩ := fallbackBase_bounds (asp.toLower.trim)
  have hm := fallback_multiplier_bound country.toLower
  have hmpos : 0 < lookupD fallback_country_multipliers country.toLower (1/2) := by
    linarith
  unfold intelligent_fallback
  refine ⟨?_, ?_, ?_⟩
  · exact mul_pos (by linarith) hmpos
  · exact mul_pos h1 hmpos
  · exact mul_lt_mul_of_pos_right h2 hmpos
